import Mathlib

/-!
Verification of the valuation engine of a stock-analysis single-page app.

The source is a React/TypeScript module.  Its pure computational core is
embedded here:

* `joinHistory`        — the P/E-onto-price join inside `fetchRealStockData`;
* `fetchValuation`     — the EPS / P/E percentile-band derivation inside
                         `fetchRealStockData` (lines 81–101 of the source);
* `calculateMA`        — the simple-moving-average helper;
* `valuationStatus`    — the cheap/fair/expensive classifier;
* `cursorPosition`     — the normalized river-chart cursor;
* `generatePrices` / `mockValuation` — the deterministic-seeded mock-data
                         generator inside `getMockData`.

JavaScript numbers are modelled as rationals (`ℚ`); `null`/`undefined`
values as `Option`.  `Math.random()` is modelled as an explicit stream
`ℕ → ℚ` of draws, `Math.sin` as an explicit function parameter, and
`Date.now()` as an explicit millisecond timestamp, so that every
definition is a pure function of its inputs exactly as the control flow
of the source dictates.
-/

namespace StockPWA

/-- One joined daily record: the source's `HistoryItem` interface
(`date: string; close: number; pe: number`). -/
structure HistoryItem where
  date : String
  close : ℚ
  pe : ℚ
deriving DecidableEq, Inhabited

/-- The source's `Valuation` interface. -/
structure Valuation where
  minPE : ℚ
  maxPE : ℚ
  cheapPrice : ℚ
  fairPrice : ℚ
  expensivePrice : ℚ
  eps : ℚ
deriving DecidableEq, Inhabited

/-- A raw daily price record from the data source (fields used:
`date`, `close`). -/
structure PriceRecord where
  date : String
  close : ℚ
deriving DecidableEq, Inhabited

/-- A raw daily P/E record from the data source (fields used: `date`
and the P/E ratio, called `p_e_ratio` in the source). -/
structure PERecord where
  date : String
  pe : ℚ
deriving DecidableEq, Inhabited

/-- JavaScript's `x || y` for an optional number `x`: yields `y` when
`x` is `null`/`undefined` or `0` (a falsy number), else `x`. -/
def jsOr (x : Option ℚ) (y : ℚ) : ℚ :=
  match x with
  | some v => if v = 0 then y else v
  | none => y

/-- The join in `fetchRealStockData`, line 75–79:
`rawPrices.map(d => ({date: d.date, close: d.close,
pe: rawPERs.find(p => p.date === d.date)?.p_e_ratio || 0}))`. -/
def joinHistory (rawPrices : List PriceRecord) (rawPERs : List PERecord) :
    List HistoryItem :=
  rawPrices.map fun d =>
    ⟨d.date, d.close, jsOr ((rawPERs.find? (fun p => p.date = d.date)).map (·.pe)) 0⟩

/-- Source line 81–84: `rawPERs.map(d => d.p_e_ratio)
.filter(pe => pe > 0 && pe < 200).sort((a,b) => a - b)` —
the valid P/E observations, ascending. -/
def validPEs (rawPERs : List PERecord) : List ℚ :=
  List.insertionSort (· ≤ ·)
    ((rawPERs.map (·.pe)).filter fun pe => decide (0 < pe) && decide (pe < 200))

/-- Source line 70: `rawPERs.length > 0 ? rawPERs[0].p_e_ratio : null`
(the list is already reversed to newest-first at this point). -/
def currentPERData (rawPERs : List PERecord) : Option ℚ :=
  if rawPERs.length > 0 then some ((rawPERs.headD default).pe) else none

/-- The divisor used to back out EPS: in the data-rich branch the
source's `validCurrentPE = currentPERData || validPEs[0]` (line 91),
otherwise the constant `15` (line 96). -/
def referencePE (rawPERs : List PERecord) : ℚ :=
  if 10 < (validPEs rawPERs).length then
    jsOr (currentPERData rawPERs) ((validPEs rawPERs).getD 0 0)
  else 15

/-- The valuation-band derivation inlined in `fetchRealStockData`,
lines 81–101: percentile band at ranks `⌊0.1·N⌋` / `⌊0.9·N⌋` when more
than 10 valid observations survive, fixed band `10/20` with
`eps = currentPrice / 15` otherwise, then
`cheap = eps·minPE`, `expensive = eps·maxPE`, `fair = (cheap+expensive)/2`. -/
def fetchValuation (rawPERs : List PERecord) (currentPrice : ℚ) : Valuation :=
  let v := validPEs rawPERs
  if 10 < v.length then
    let minPE := v.getD (v.length / 10) 0
    let maxPE := v.getD (v.length * 9 / 10) 0
    let validCurrentPE := jsOr (currentPERData rawPERs) (v.getD 0 0)
    let eps := currentPrice / validCurrentPE
    let cheapPrice := eps * minPE
    let expensivePrice := eps * maxPE
    ⟨minPE, maxPE, cheapPrice, (cheapPrice + expensivePrice) / 2, expensivePrice, eps⟩
  else
    let minPE : ℚ := 10
    let maxPE : ℚ := 20
    let eps := currentPrice / 15
    let cheapPrice := eps * minPE
    let expensivePrice := eps * maxPE
    ⟨minPE, maxPE, cheapPrice, (cheapPrice + expensivePrice) / 2, expensivePrice, eps⟩

/-- `calculateMA` (source lines 327–331):
`if (!data || data.length < days) return 0;
return data.slice(0, days).reduce((a,c) => a + c.close, 0) / days;`. -/
def calculateMA (data : List HistoryItem) (days : ℕ) : ℚ :=
  if data.length < days then 0
  else ((data.take days).map (·.close)).sum / days

/-- The `valuationStatus` memo (source lines 366–378), as a function of
the current price and the valuation band it reads from the snapshot.
JavaScript's `!valuation.cheapPrice` is the zero test on a number. -/
def valuationStatus (currentPrice : ℚ) (valuation : Valuation) : String :=
  if valuation.cheapPrice = 0 ∨ valuation.expensivePrice = 0 then "無資料"
  else
    let lowerThreshold := valuation.cheapPrice * 0.4 + valuation.fairPrice * 0.6
    let upperThreshold := valuation.fairPrice * 0.4 + valuation.expensivePrice * 0.6
    if currentPrice ≤ lowerThreshold then "便宜價"
    else if upperThreshold ≤ currentPrice then "昂貴價"
    else "合理價"

/-- The `cursorPosition` memo (source lines 380–386), as a function of
the current price and the valuation band. -/
def cursorPosition (currentPrice : ℚ) (valuation : Valuation) : ℚ :=
  if valuation.cheapPrice = 0 then 50
  else
    let range := valuation.expensivePrice * 1.2 - valuation.cheapPrice * 0.8
    let pos := (currentPrice - valuation.cheapPrice * 0.8) / range * 100
    min (max pos 0) 100

/-! ### The mock-data generator (`getMockData`, source lines 129–170) -/

/-- `seed = symbol.split('').reduce((acc,c) => acc + c.charCodeAt(0), 0)`
(source line 132).  Stock symbols are ASCII, where UTF-16 code units and
code points coincide, so `Char.toNat` models `charCodeAt`. -/
def mockSeed (symbol : String) : ℕ :=
  (symbol.data.map Char.toNat).sum

/-- The generator's starting price, `500 + (seed % 200)` (source line 134). -/
def mockBasePrice (seed : ℕ) : ℚ :=
  500 + (seed % 200 : ℕ)

/-- `parseFloat(x.toFixed(2))`: rounding to two decimal places. -/
def round2 (x : ℚ) : ℚ :=
  (⌊x * 100 + 1 / 2⌋ : ℤ) / 100

/-- Proleptic-Gregorian civil date from a count of days since the Unix
epoch — the date part of JavaScript's `toISOString()`.  Returns
`(year, month, day)`. -/
def civilFromDays (z0 : ℤ) : ℤ × ℕ × ℕ :=
  let z := z0 + 719468
  let era : ℤ := Int.fdiv z 146097
  let doe : ℕ := (z - era * 146097).toNat
  let yoe : ℕ := (doe - doe / 1460 + doe / 36524 - doe / 146096) / 365
  let doy : ℕ := doe - (365 * yoe + yoe / 4 - yoe / 100)
  let mp : ℕ := (5 * doy + 2) / 153
  let d : ℕ := doy - (153 * mp + 2) / 5 + 1
  let m : ℕ := if mp < 10 then mp + 3 else mp - 9
  (era * 400 + yoe + (if m ≤ 2 then 1 else 0), m, d)

/-- Zero-pad a month or day number to two digits. -/
def pad2 (n : ℕ) : String :=
  if n < 10 then "0" ++ toString n else toString n

/-- `new Date(ms).toISOString().split('T')[0]` — the `YYYY-MM-DD`
date string of a millisecond epoch timestamp. -/
def epochMsToISODate (ms : ℤ) : String :=
  let c := civilFromDays (Int.fdiv ms 86400000)
  toString c.1 ++ "-" ++ pad2 c.2.1 ++ "-" ++ pad2 c.2.2

/-- The body of the generator's `for` loop (source lines 136–145), in
chronological order before the final `reverse`.  `i` is the loop index,
`steps` the remaining iterations, `price` the running price.  Iteration
`i` draws `rand (2*i)` for the price perturbation and `rand (2*i+1)`
for the synthetic P/E, modelling the two `Math.random()` calls. -/
def generateFrom (mathSin : ℚ → ℚ) (rand : ℕ → ℚ) (nowMs : ℤ) (days : ℕ) :
    ℕ → ℕ → ℚ → List HistoryItem
  | _, 0, _ => []
  | i, steps + 1, price =>
    let change := mathSin ((i : ℚ) * 0.1) * 10 + (rand (2 * i) - 0.5) * 5
    let price1 := price + change
    let price2 := if price1 < 10 then 10 else price1
    ⟨epochMsToISODate (nowMs - ((days : ℤ) - (i : ℤ)) * 86400000),
      round2 price2,
      round2 (price2 / (20 + rand (2 * i + 1) * 5))⟩
      :: generateFrom mathSin rand nowMs days (i + 1) steps price2

/-- `generatePrices(days)` (source lines 133–147): run the loop from the
seeded base price, then `data.reverse()` to newest-first. -/
def generatePrices (mathSin : ℚ → ℚ) (rand : ℕ → ℚ) (nowMs : ℤ)
    (seed : ℕ) (days : ℕ) : List HistoryItem :=
  (generateFrom mathSin rand nowMs days 0 days (mockBasePrice seed)).reverse

/-- `getMockData`'s history series: `generatePrices(365 * 3)` with the
symbol-derived seed (source line 149). -/
def mockHistory (mathSin : ℚ → ℚ) (rand : ℕ → ℚ) (nowMs : ℤ)
    (symbol : String) : List HistoryItem :=
  generatePrices mathSin rand nowMs (mockSeed symbol) (365 * 3)

/-- The valuation constructed by `getMockData` (source lines 150–166)
from its generated history: percentile band over all synthetic P/Es,
`eps = currentPrice / currentPE`, and
`fairPrice = eps * (minPE + maxPE) / 2`. -/
def mockValuation (historyData : List HistoryItem) : Valuation :=
  let currentPrice := (historyData.headD default).close
  let currentPE := (historyData.headD default).pe
  let peValues := List.insertionSort (· ≤ ·) (historyData.map (·.pe))
  let minPE := peValues.getD (peValues.length / 10) 0
  let maxPE := peValues.getD (peValues.length * 9 / 10) 0
  let eps := currentPrice / currentPE
  ⟨minPE, maxPE, eps * minPE, eps * (minPE + maxPE) / 2, eps * maxPE, eps⟩

/-! ### Spec-side definitions (for refinement statements) -/

/-- The spec's discrete `ValuationStatus`. -/
inductive SpecStatus where
  | Cheap
  | Fair
  | Expensive
  | NoData
deriving DecidableEq

/-- Modelled from the spec's classifier contract (§4.4): NoData when
`cheapPrice` or `expensivePrice` is absent/zero; otherwise compare the
current price with the blended thresholds. -/
def specClassify (currentPrice : ℚ) (band : Valuation) : SpecStatus :=
  if band.cheapPrice = 0 ∨ band.expensivePrice = 0 then SpecStatus.NoData
  else
    let lowerThreshold := band.cheapPrice * 0.4 + band.fairPrice * 0.6
    let upperThreshold := band.fairPrice * 0.4 + band.expensivePrice * 0.6
    if currentPrice ≤ lowerThreshold then SpecStatus.Cheap
    else if upperThreshold ≤ currentPrice then SpecStatus.Expensive
    else SpecStatus.Fair

/-- The display string the source uses for each spec status. -/
def statusLabel : SpecStatus → String
  | SpecStatus.Cheap => "便宜價"
  | SpecStatus.Fair => "合理價"
  | SpecStatus.Expensive => "昂貴價"
  | SpecStatus.NoData => "無資料"

/-- Arithmetic mean of a list of rationals. -/
def arithMean (xs : List ℚ) : ℚ :=
  xs.sum / xs.length

/-! ### Concrete data used to exercise the theorems -/

/-- A 20-record newest-first series with closes 20, 19, …, 1. -/
def ex20 : List HistoryItem :=
  [⟨"", 20, 0⟩, ⟨"", 19, 0⟩, ⟨"", 18, 0⟩, ⟨"", 17, 0⟩, ⟨"", 16, 0⟩,
   ⟨"", 15, 0⟩, ⟨"", 14, 0⟩, ⟨"", 13, 0⟩, ⟨"", 12, 0⟩, ⟨"", 11, 0⟩,
   ⟨"", 10, 0⟩, ⟨"", 9, 0⟩, ⟨"", 8, 0⟩, ⟨"", 7, 0⟩, ⟨"", 6, 0⟩,
   ⟨"", 5, 0⟩, ⟨"", 4, 0⟩, ⟨"", 3, 0⟩, ⟨"", 2, 0⟩, ⟨"", 1, 0⟩]

/-- Newest-first P/E records whose latest (first) ratio is `0` while the
remaining eleven observations 1, …, 11 all survive the `(0, 200)` filter. -/
def cexPERs : List PERecord :=
  [⟨"d00", 0⟩, ⟨"d01", 1⟩, ⟨"d02", 2⟩, ⟨"d03", 3⟩, ⟨"d04", 4⟩, ⟨"d05", 5⟩,
   ⟨"d06", 6⟩, ⟨"d07", 7⟩, ⟨"d08", 8⟩, ⟨"d09", 9⟩, ⟨"d10", 10⟩, ⟨"d11", 11⟩]

/-- Newest-first P/E records with a nonzero latest ratio `11` and eleven
surviving observations 1, …, 11. -/
def wPERs : List PERecord :=
  [⟨"d00", 11⟩, ⟨"d01", 1⟩, ⟨"d02", 2⟩, ⟨"d03", 3⟩, ⟨"d04", 4⟩, ⟨"d05", 5⟩,
   ⟨"d06", 6⟩, ⟨"d07", 7⟩, ⟨"d08", 8⟩, ⟨"d09", 9⟩, ⟨"d10", 10⟩]

/-- Newest-first P/E records whose latest ratio is negative (`-5`) while
eleven positive observations 1, …, 11 survive the filter. -/
def nPERs : List PERecord :=
  [⟨"d00", -5⟩, ⟨"d01", 1⟩, ⟨"d02", 2⟩, ⟨"d03", 3⟩, ⟨"d04", 4⟩, ⟨"d05", 5⟩,
   ⟨"d06", 6⟩, ⟨"d07", 7⟩, ⟨"d08", 8⟩, ⟨"d09", 9⟩, ⟨"d10", 10⟩, ⟨"d11", 11⟩]

/-- A constant stand-in for `Math.sin`. -/
def constSin : ℚ → ℚ := fun _ => 0

/-- A constant random stream. -/
def constRand : ℕ → ℚ := fun _ => 1 / 2

/-- A second random stream, pointwise equal to `constRand` but not
definitionally so. -/
def constRand2 : ℕ → ℚ := fun _ => (2 : ℚ)⁻¹

/-! ### Helper lemmas -/

/-- The surviving observations are sorted ascending. -/
theorem validPEs_sorted (rawPERs : List PERecord) :
    (validPEs rawPERs).Sorted (· ≤ ·) :=
  List.sorted_insertionSort _ _

/-- Every surviving observation lies in the exclusive range `(0, 200)`. -/
theorem validPEs_mem_range (rawPERs : List PERecord) :
    ∀ x ∈ validPEs rawPERs, 0 < x ∧ x < 200 := by
  intro x hx
  have hx' := (List.perm_insertionSort (· ≤ ·) _).subset hx
  have h := List.mem_filter.mp hx'
  simpa using h.2

/-- In an ascending list, the element at a smaller index is at most the
element at a larger (in-range) index. -/
theorem sorted_getD_mono {l : List ℚ} (hs : l.Sorted (· ≤ ·)) {i j : ℕ}
    (hij : i ≤ j) (hj : j < l.length) : l.getD i 0 ≤ l.getD j 0 := by
  have hi : i < l.length := lt_of_le_of_lt hij hj
  rw [List.getD_eq_getElem l 0 hi, List.getD_eq_getElem l 0 hj]
  have h := List.Sorted.rel_get_of_le hs
    (show (⟨i, hi⟩ : Fin l.length) ≤ ⟨j, hj⟩ from hij)
  simpa using h

/-- In an ascending list, the first element is a lower bound. -/
theorem sorted_getD_zero_le {l : List ℚ} (hs : l.Sorted (· ≤ ·)) :
    ∀ x ∈ l, l.getD 0 0 ≤ x := by
  intro x hx
  obtain ⟨j, rfl⟩ := List.mem_iff_get.mp hx
  have h0 : 0 < l.length := lt_of_le_of_lt (Nat.zero_le _) j.isLt
  rw [List.getD_eq_getElem l 0 h0]
  have h := List.Sorted.rel_get_of_le hs
    (show (⟨0, h0⟩ : Fin l.length) ≤ j from Nat.zero_le _)
  simpa using h

/-! ### Claim C1 -/

/-- Claim C1 is refuted as stated: on a series with fewer records than
the window (one record, window 5), `calculateMA` returns the number `0`
— not an undefined/absent marker.  The claim said the result is
"undefined — not 0". -/
theorem calculateMA_short_counterexample :
    calculateMA [⟨"2024-01-02", 100, 15⟩] 5 = 0 := by
  decide

/-- Claim C1 (amended): for every history series and every window size,
if the series contains fewer records than the window, `calculateMA`
returns `0` — the code's in-band absent sentinel, which the `MACard`
component renders as missing — rather than an undefined marker. -/
theorem calculateMA_short_eq_zero (data : List HistoryItem) (days : ℕ)
    (h : data.length < days) : calculateMA data days = 0 := by
  simp [calculateMA, h]

/-- Witness for `calculateMA_short_eq_zero` on an empty series with
window 10. -/
theorem calculateMA_short_eq_zero_witness :
    ([] : List HistoryItem).length < 10 ∧ calculateMA [] 10 = 0 :=
  ⟨by decide, calculateMA_short_eq_zero [] 10 (by decide)⟩

/-! ### Claim C8 -/

/-- Claim C8: for every newest-first history series with at least
`windowDays` records, `calculateMA` returns exactly the arithmetic mean
of the first `windowDays` closes; in particular, on 20 records with
closes 20, 19, …, 1 (newest first) the 5-day average is 18. -/
theorem calculateMA_mean :
    (∀ (data : List HistoryItem) (days : ℕ), days ≤ data.length →
      calculateMA data days = arithMean ((data.take days).map (·.close)))
    ∧ calculateMA ex20 5 = 18 := by
  constructor
  · intro data days h
    have hlen : (((data.take days).map (·.close)) : List ℚ).length = days := by
      simp [Nat.min_eq_left h]
    rw [calculateMA, if_neg (by omega), arithMean, hlen]
  · norm_num [calculateMA, ex20]

/-- Witness for `calculateMA_mean` on the concrete 20-record series and
window 5. -/
theorem calculateMA_mean_witness :
    5 ≤ ex20.length
    ∧ calculateMA ex20 5 = arithMean ((ex20.take 5).map (·.close)) :=
  ⟨by decide, calculateMA_mean.1 ex20 5 (by decide)⟩

/-! ### Claim C4 -/

/-- Claim C4: whenever at most 10 P/E observations survive the filter,
the derivation falls back (totally, with no error path) to the fixed
band `lowPE = 10`, `highPE = 20`, `eps = currentPrice / 15`; in
particular `currentPrice = 150` yields `eps = 10`, `cheapPrice = 100`,
`expensivePrice = 200`, `fairPrice = 150`. -/
theorem fetchValuation_fallback :
    (∀ (rawPERs : List PERecord) (currentPrice : ℚ),
      (validPEs rawPERs).length ≤ 10 →
        fetchValuation rawPERs currentPrice =
          ⟨10, 20, currentPrice / 15 * 10,
            (currentPrice / 15 * 10 + currentPrice / 15 * 20) / 2,
            currentPrice / 15 * 20, currentPrice / 15⟩)
    ∧ (fetchValuation [] 150).eps = 10
    ∧ (fetchValuation [] 150).cheapPrice = 100
    ∧ (fetchValuation [] 150).expensivePrice = 200
    ∧ (fetchValuation [] 150).fairPrice = 150 := by
  refine ⟨?_, by norm_num [fetchValuation, validPEs],
    by norm_num [fetchValuation, validPEs], by norm_num [fetchValuation, validPEs],
    by norm_num [fetchValuation, validPEs]⟩
  intro rawPERs currentPrice h
  simp [fetchValuation, Nat.not_lt.mpr h]

/-- Witness for `fetchValuation_fallback` on an empty P/E history and
current price 150. -/
theorem fetchValuation_fallback_witness :
    (validPEs []).length ≤ 10
    ∧ fetchValuation [] 150 =
        ⟨10, 20, (150 : ℚ) / 15 * 10,
          ((150 : ℚ) / 15 * 10 + (150 : ℚ) / 15 * 20) / 2,
          (150 : ℚ) / 15 * 20, (150 : ℚ) / 15⟩ :=
  ⟨by decide, fetchValuation_fallback.1 [] 150 (by decide)⟩

/-! ### Claim C5 -/

/-- Claim C5 is refuted in its concrete example: on the band
`(cheap, fair, expensive) = (80, 100, 120)` the upper threshold is
`fairPrice·0.4 + expensivePrice·0.6 = 40 + 72 = 112`, not 108, so a
current price of 108 classifies as Fair (`合理價`), not Expensive
(`昂貴價`) as the claim states. -/
theorem valuationStatus_counterexample :
    valuationStatus 108 ⟨0, 0, 80, 100, 120, 0⟩ = "合理價"
    ∧ valuationStatus 108 ⟨0, 0, 80, 100, 120, 0⟩ ≠ "昂貴價" := by
  have h1 : ¬((108 : ℚ) ≤ 80 * 0.4 + 100 * 0.6) := by norm_num
  have h2 : ¬((100 : ℚ) * 0.4 + 120 * 0.6 ≤ 108) := by norm_num
  constructor
  · simp [valuationStatus, h1, h2]
  · simp [valuationStatus, h1, h2]

/-- Claim C5 (amended): for every current price and valuation band, the
source's classifier agrees with the spec's: `NoData` when `cheapPrice`
or `expensivePrice` is absent/zero, else `Cheap` when the price is at
most `cheapPrice·0.4 + fairPrice·0.6`, `Expensive` when it is at least
`fairPrice·0.4 + expensivePrice·0.6`, and `Fair` otherwise; on the band
`(cheap, fair, expensive) = (80, 100, 120)` the thresholds are 92 and
112 (not 108), and prices 92 / 112 / 100 classify as
Cheap / Expensive / Fair. -/
theorem valuationStatus_matches_spec :
    (∀ (currentPrice : ℚ) (band : Valuation),
      valuationStatus currentPrice band = statusLabel (specClassify currentPrice band))
    ∧ valuationStatus 92 ⟨0, 0, 80, 100, 120, 0⟩ = "便宜價"
    ∧ valuationStatus 112 ⟨0, 0, 80, 100, 120, 0⟩ = "昂貴價"
    ∧ valuationStatus 100 ⟨0, 0, 80, 100, 120, 0⟩ = "合理價" := by
  refine ⟨?_, ?_, ?_, ?_⟩
  · intro currentPrice band
    dsimp only [valuationStatus, specClassify]
    split_ifs <;> rfl
  · norm_num [valuationStatus]
  · norm_num [valuationStatus]
  · have h1 : ¬((100 : ℚ) ≤ 80 * 0.4 + 100 * 0.6) := by norm_num
    have h2 : ¬((100 : ℚ) * 0.4 + 120 * 0.6 ≤ 100) := by norm_num
    simp [valuationStatus, h1, h2]

/-! ### Claim C6 -/

/-- Claim C6: for every snapshot with a derived band (nonzero
`cheapPrice`), the cursor position equals the normalized formula
clamped to `[0, 100]`, and it always lies within `[0, 100]` no matter
how far the current price is from `[cheapPrice·0.8, expensivePrice·1.2]`. -/
theorem cursorPosition_clamped (currentPrice : ℚ) (valuation : Valuation)
    (h : valuation.cheapPrice ≠ 0) :
    cursorPosition currentPrice valuation =
      min (max ((currentPrice - valuation.cheapPrice * 0.8) /
        (valuation.expensivePrice * 1.2 - valuation.cheapPrice * 0.8) * 100) 0) 100
    ∧ 0 ≤ cursorPosition currentPrice valuation
    ∧ cursorPosition currentPrice valuation ≤ 100 := by
  have heq : cursorPosition currentPrice valuation =
      min (max ((currentPrice - valuation.cheapPrice * 0.8) /
        (valuation.expensivePrice * 1.2 - valuation.cheapPrice * 0.8) * 100) 0) 100 := by
    dsimp only [cursorPosition]
    rw [if_neg h]
  refine ⟨heq, ?_, ?_⟩
  · rw [heq]
    exact le_min (le_max_right _ _) (by norm_num)
  · rw [heq]
    exact min_le_right _ _

/-- Witness for `cursorPosition_clamped`: with band
`(cheap, fair, expensive) = (80, 100, 120)` and a current price of one
million — far above `expensivePrice·1.2` — the cursor stays in
`[0, 100]`. -/
theorem cursorPosition_clamped_witness :
    (⟨0, 0, 80, 100, 120, 0⟩ : Valuation).cheapPrice ≠ 0
    ∧ 0 ≤ cursorPosition 1000000 ⟨0, 0, 80, 100, 120, 0⟩
    ∧ cursorPosition 1000000 ⟨0, 0, 80, 100, 120, 0⟩ ≤ 100 :=
  ⟨by norm_num, (cursorPosition_clamped 1000000 ⟨0, 0, 80, 100, 120, 0⟩ (by norm_num)).2⟩

/-! ### Claim C2 -/

/-- Claim C2, evaluated at the failing input: a price record dated
`2024-01-05` with no P/E record of that date joins to `pe = 0` — the
source's `... ?.p_e_ratio || 0` default — not to an explicit absent
marker as the spec requires. -/
theorem joinHistory_missing_pe_defaults_zero :
    joinHistory [⟨"2024-01-05", 100⟩] [⟨"2024-01-03", 18⟩]
      = [⟨"2024-01-05", 100, 0⟩] := by
  decide

/-! ### Claim C3 -/

/-- Claim C3 is refuted as stated: a latest P/E that is present but
zero is falsy in the source's `currentPERData || validPEs[0]`, so the
code divides by the smallest surviving observation (here `1`, giving
`eps = 100`), not by the present `latestPE = 0` as the claim's
"when latestPE is present" reading requires. -/
theorem fetchValuation_latestPE_zero_counterexample :
    currentPERData cexPERs = some 0
    ∧ 10 < (validPEs cexPERs).length
    ∧ (fetchValuation cexPERs 100).eps = 100
    ∧ (fetchValuation cexPERs 100).eps ≠ 100 / 0 := by
  refine ⟨by norm_num [currentPERData, cexPERs], ?_, ?_, ?_⟩
  · norm_num [validPEs, cexPERs, List.insertionSort, List.orderedInsert]
  · norm_num [fetchValuation, validPEs, cexPERs, List.insertionSort, List.orderedInsert,
      currentPERData, jsOr]
  · norm_num [fetchValuation, validPEs, cexPERs, List.insertionSort, List.orderedInsert,
      currentPERData, jsOr]

/-- Claim C3 (amended): when more than 10 observations survive the
`(0, 200)` filter, the band is taken at the zero-based sorted ranks
`⌊0.1·N⌋` and `⌊0.9·N⌋` with no interpolation, and
`eps = currentPrice / latestPE` when the latest P/E is present *and
nonzero*; when it is absent *or zero*, the divisor is instead the
smallest surviving observation (index 0 of the ascending sort, a lower
bound of all survivors). -/
theorem fetchValuation_band_ranks (rawPERs : List PERecord) (currentPrice : ℚ)
    (h : 10 < (validPEs rawPERs).length) :
    (fetchValuation rawPERs currentPrice).minPE
        = (validPEs rawPERs).getD ((validPEs rawPERs).length / 10) 0
    ∧ (fetchValuation rawPERs currentPrice).maxPE
        = (validPEs rawPERs).getD ((validPEs rawPERs).length * 9 / 10) 0
    ∧ (∀ q : ℚ, currentPERData rawPERs = some q → q ≠ 0 →
        (fetchValuation rawPERs currentPrice).eps = currentPrice / q)
    ∧ (currentPERData rawPERs = none ∨ currentPERData rawPERs = some 0 →
        (fetchValuation rawPERs currentPrice).eps
          = currentPrice / (validPEs rawPERs).getD 0 0)
    ∧ (∀ x ∈ validPEs rawPERs, (validPEs rawPERs).getD 0 0 ≤ x) := by
  dsimp only [fetchValuation]
  rw [if_pos h]
  refine ⟨rfl, rfl, ?_, ?_, ?_⟩
  · intro q hq hq0
    dsimp only
    rw [hq]
    simp [jsOr, hq0]
  · rintro (hn | h0)
    · dsimp only
      rw [hn]
      simp [jsOr]
    · dsimp only
      rw [h0]
      simp [jsOr]
  · exact sorted_getD_zero_le (validPEs_sorted rawPERs)

/-- Witness for `fetchValuation_band_ranks` on eleven surviving
observations 1, …, 11 with a nonzero latest P/E of 11: the band ranks
are `⌊1.1⌋ = 1` and `⌊9.9⌋ = 9` and `eps = 100 / 11`. -/
theorem fetchValuation_band_ranks_witness :
    10 < (validPEs wPERs).length
    ∧ (fetchValuation wPERs 100).minPE
        = (validPEs wPERs).getD ((validPEs wPERs).length / 10) 0
    ∧ (fetchValuation wPERs 100).maxPE
        = (validPEs wPERs).getD ((validPEs wPERs).length * 9 / 10) 0
    ∧ (fetchValuation wPERs 100).eps = 100 / 11 := by
  have hlen : 10 < (validPEs wPERs).length := by
    norm_num [validPEs, wPERs, List.insertionSort, List.orderedInsert]
  have hc : currentPERData wPERs = some 11 := by
    norm_num [currentPERData, wPERs]
  exact ⟨hlen, (fetchValuation_band_ranks wPERs 100 hlen).1,
    (fetchValuation_band_ranks wPERs 100 hlen).2.1,
    (fetchValuation_band_ranks wPERs 100 hlen).2.2.1 11 hc (by norm_num)⟩

/-! ### Claim C7 -/

/-- Claim C7: every valuation band the system produces — the live-data
path with its data-rich and fallback branches, and the mock-data path —
satisfies `minPE ≤ maxPE`, `cheapPrice = eps·minPE`,
`expensivePrice = eps·maxPE`, and `fairPrice` equal to the midpoint of
`cheapPrice` and `expensivePrice`. -/
theorem valuation_band_invariants :
    (∀ (rawPERs : List PERecord) (currentPrice : ℚ),
      (fetchValuation rawPERs currentPrice).minPE
          ≤ (fetchValuation rawPERs currentPrice).maxPE
      ∧ (fetchValuation rawPERs currentPrice).cheapPrice
          = (fetchValuation rawPERs currentPrice).eps
              * (fetchValuation rawPERs currentPrice).minPE
      ∧ (fetchValuation rawPERs currentPrice).expensivePrice
          = (fetchValuation rawPERs currentPrice).eps
              * (fetchValuation rawPERs currentPrice).maxPE
      ∧ (fetchValuation rawPERs currentPrice).fairPrice
          = ((fetchValuation rawPERs currentPrice).cheapPrice
              + (fetchValuation rawPERs currentPrice).expensivePrice) / 2)
    ∧ (∀ historyData : List HistoryItem, historyData ≠ [] →
      (mockValuation historyData).minPE ≤ (mockValuation historyData).maxPE
      ∧ (mockValuation historyData).cheapPrice
          = (mockValuation historyData).eps * (mockValuation historyData).minPE
      ∧ (mockValuation historyData).expensivePrice
          = (mockValuation historyData).eps * (mockValuation historyData).maxPE
      ∧ (mockValuation historyData).fairPrice
          = ((mockValuation historyData).cheapPrice
              + (mockValuation historyData).expensivePrice) / 2) := by
  constructor
  · intro rawPERs currentPrice
    dsimp only [fetchValuation]
    split_ifs with hlen
    · exact ⟨sorted_getD_mono (validPEs_sorted rawPERs) (by omega) (by omega),
        rfl, rfl, rfl⟩
    · exact ⟨by norm_num, rfl, rfl, rfl⟩
  · intro historyData hne
    dsimp only [mockValuation]
    have hlen : 0 < (List.insertionSort (· ≤ ·) (historyData.map (·.pe))).length := by
      rw [List.length_insertionSort, List.length_map]
      cases historyData with
      | nil => exact absurd rfl hne
      | cons a l => simp
    exact ⟨sorted_getD_mono (List.sorted_insertionSort _ _) (by omega) (by omega),
      rfl, rfl, by ring⟩

/-- Witness for `valuation_band_invariants` on a one-record mock
history. -/
theorem valuation_band_invariants_witness :
    ([⟨"2024-01-02", 100, 15⟩] : List HistoryItem) ≠ []
    ∧ (mockValuation [⟨"2024-01-02", 100, 15⟩]).minPE
        ≤ (mockValuation [⟨"2024-01-02", 100, 15⟩]).maxPE :=
  ⟨by simp, (valuation_band_invariants.2 [⟨"2024-01-02", 100, 15⟩] (by simp)).1⟩

/-! ### Claim C10 -/

/-- Claim C10: the EPS divisor is never zero, so
`eps = currentPrice / referencePE` never divides by zero: in the
data-rich branch a zero or absent latest P/E falls back to the smallest
surviving observation, which the `pe > 0` filter makes strictly
positive, and otherwise the divisor is the constant 15; a negative
latest P/E, however, is used as-is and makes `eps` negative for a
positive current price. -/
theorem fetchValuation_divisor_nonzero :
    (∀ rawPERs : List PERecord, referencePE rawPERs ≠ 0)
    ∧ (∀ (rawPERs : List PERecord) (currentPrice : ℚ),
        (fetchValuation rawPERs currentPrice).eps
          = currentPrice / referencePE rawPERs)
    ∧ (∀ (rawPERs : List PERecord) (q : ℚ), 10 < (validPEs rawPERs).length →
        currentPERData rawPERs = some q → q < 0 → referencePE rawPERs = q)
    ∧ (∀ (rawPERs : List PERecord) (q currentPrice : ℚ),
        10 < (validPEs rawPERs).length → currentPERData rawPERs = some q →
          q < 0 → 0 < currentPrice →
            (fetchValuation rawPERs currentPrice).eps < 0) := by
  have hpos : ∀ rawPERs : List PERecord, 0 < (validPEs rawPERs).length →
      0 < (validPEs rawPERs).getD 0 0 := by
    intro rawPERs h0
    rw [List.getD_eq_getElem _ 0 h0]
    exact (validPEs_mem_range rawPERs _ (List.getElem_mem h0)).1
  refine ⟨?_, ?_, ?_, ?_⟩
  · intro rawPERs
    dsimp only [referencePE]
    split_ifs with hlen
    · cases hc : currentPERData rawPERs with
      | none => simpa [jsOr] using (hpos rawPERs (by omega)).ne'
      | some q =>
        by_cases hq : q = 0
        · simpa [jsOr, hq] using (hpos rawPERs (by omega)).ne'
        · simp [jsOr, hq]
    · norm_num
  · intro rawPERs currentPrice
    dsimp only [fetchValuation, referencePE]
    split_ifs with hlen <;> rfl
  · intro rawPERs q hlen hq hqneg
    dsimp only [referencePE]
    rw [if_pos hlen, hq]
    simp [jsOr, ne_of_lt hqneg]
  · intro rawPERs q currentPrice hlen hq hqneg hp
    dsimp only [fetchValuation]
    rw [if_pos hlen]
    dsimp only
    rw [hq]
    simp only [jsOr, if_neg (ne_of_lt hqneg)]
    exact div_neg_of_pos_of_neg hp hqneg

/-- Witness for `fetchValuation_divisor_nonzero` on a history whose
latest P/E is `-5` with eleven positive survivors. -/
theorem fetchValuation_divisor_nonzero_witness :
    referencePE nPERs ≠ 0
    ∧ (fetchValuation nPERs 100).eps = 100 / referencePE nPERs
    ∧ referencePE nPERs = -5
    ∧ (fetchValuation nPERs 100).eps < 0 := by
  have hlen : 10 < (validPEs nPERs).length := by
    norm_num [validPEs, nPERs, List.insertionSort, List.orderedInsert]
  have hc : currentPERData nPERs = some (-5) := by
    norm_num [currentPERData, nPERs]
  exact ⟨fetchValuation_divisor_nonzero.1 nPERs,
    fetchValuation_divisor_nonzero.2.1 nPERs 100,
    fetchValuation_divisor_nonzero.2.2.1 nPERs (-5) hlen hc (by norm_num),
    fetchValuation_divisor_nonzero.2.2.2 nPERs (-5) 100 hlen hc
      (by norm_num) (by norm_num)⟩

/-! ### Claim C9 -/

/-- The generator loop emits exactly one record per iteration. -/
theorem generateFrom_length (mathSin : ℚ → ℚ) (rand : ℕ → ℚ) (nowMs : ℤ)
    (days : ℕ) : ∀ (steps i : ℕ) (price : ℚ),
      (generateFrom mathSin rand nowMs days i steps price).length = steps := by
  intro steps
  induction steps with
  | zero => intro i price; rfl
  | succ n ih => intro i price; simp [generateFrom, ih]

/-- The date column of the generator loop depends only on the timestamp,
the day count and the loop index — not on the sine table, the random
stream or the running price. -/
theorem generateFrom_map_date (s₁ s₂ : ℚ → ℚ) (r₁ r₂ : ℕ → ℚ) (nowMs : ℤ)
    (days : ℕ) : ∀ (steps i : ℕ) (p₁ p₂ : ℚ),
      (generateFrom s₁ r₁ nowMs days i steps p₁).map (·.date)
        = (generateFrom s₂ r₂ nowMs days i steps p₂).map (·.date) := by
  intro steps
  induction steps with
  | zero => intro i p₁ p₂; rfl
  | succ n ih =>
    intro i p₁ p₂
    simp only [generateFrom, List.map_cons]
    exact congrArg₂ List.cons rfl (ih (i + 1) _ _)

/-- Claim C9: the mock series generator is deterministic per symbol
given the same random source: the seed is the sum of the symbol's
character codes, the base price is `500 + seed % 200`, the emitted
date range (3 years, 1095 records) is a function of the clock alone —
identical across repeated calls and across differing random draws —
and two calls fed pointwise-equal random streams produce the very same
sequence of records. -/
theorem mockHistory_deterministic :
    (∀ symbol : String, mockSeed symbol = (symbol.data.map Char.toNat).sum)
    ∧ (∀ seed : ℕ, mockBasePrice seed = 500 + (seed % 200 : ℕ))
    ∧ (∀ (mathSin : ℚ → ℚ) (r₁ r₂ : ℕ → ℚ) (nowMs : ℤ) (symbol : String),
        (mockHistory mathSin r₁ nowMs symbol).map (·.date)
          = (mockHistory mathSin r₂ nowMs symbol).map (·.date))
    ∧ (∀ (mathSin : ℚ → ℚ) (r : ℕ → ℚ) (nowMs : ℤ) (symbol : String),
        (mockHistory mathSin r nowMs symbol).length = 365 * 3)
    ∧ (∀ (mathSin : ℚ → ℚ) (r₁ r₂ : ℕ → ℚ) (nowMs : ℤ) (symbol : String),
        (∀ i, r₁ i = r₂ i) →
          mockHistory mathSin r₁ nowMs symbol
            = mockHistory mathSin r₂ nowMs symbol) := by
  refine ⟨fun _ => rfl, fun _ => rfl, ?_, ?_, ?_⟩
  · intro mathSin r₁ r₂ nowMs symbol
    dsimp only [mockHistory, generatePrices]
    rw [List.map_reverse, List.map_reverse]
    exact congrArg List.reverse
      (generateFrom_map_date mathSin mathSin r₁ r₂ nowMs (365 * 3) (365 * 3) 0 _ _)
  · intro mathSin r nowMs symbol
    dsimp only [mockHistory, generatePrices]
    rw [List.length_reverse, generateFrom_length]
  · intro mathSin r₁ r₂ nowMs symbol h
    rw [funext h]

/-- Witness for `mockHistory_deterministic`: the pointwise-equal random
streams `constRand` and `constRand2` generate identical mock series for
symbol `2330`. -/
theorem mockHistory_deterministic_witness :
    mockHistory constSin constRand 0 "2330"
      = mockHistory constSin constRand2 0 "2330" :=
  mockHistory_deterministic.2.2.2.2 constSin constRand constRand2 0 "2330"
    (fun _ => by norm_num [constRand, constRand2])

end StockPWA
